import Mathlib

/-!
Verification of the SHP → Geosoft PLY converter (`shp2ply.py`).

The embedding models the conversion core:
* `geodf_to_ply_string` — the serializer loop over a `GeoDataFrame`'s
  geometry column (source lines 10–41), modelled as a list of buffer
  writes that are concatenated at the end, exactly as `io.StringIO`
  accumulates them;
* the polygon-family filter of `main` (source lines 143–144);
* the orchestration of `main` (load → filter → emptiness check →
  reproject → serialize → download), with the Streamlit I/O boundary
  abstracted as `Except` results and an injected reprojection function.

Coordinates are exact rationals; `fmt2` models Python's `f"{x:.2f}"`
fixed-point formatting (round to nearest hundredth, then print with
exactly two decimal digits).
-/

namespace Shp2Ply

/-- A vertex, shapely's (x, y) coordinate pair. -/
abbrev Pt := ℚ × ℚ

/-- A shapely `Polygon`: its exterior ring plus interior rings (holes).
The converter reads only `poly.exterior`. -/
structure Poly where
  exterior : List Pt
  holes : List (List Pt)
deriving DecidableEq

/-- One entry of a GeoDataFrame's geometry column: the geometry types the
loader can produce, plus `null` for a missing geometry. -/
inductive Geometry where
  | point (p : Pt)
  | lineString (pts : List Pt)
  | polygon (p : Poly)
  | multiPolygon (parts : List Poly)
  | null
deriving DecidableEq

/-- `geom is None` in the serializer loop / `geometry.notnull()` in `main`. -/
def Geometry.isNull : Geometry → Bool
  | .null => true
  | _ => false

/-- shapely's `geom_type` string tag. A missing geometry carries no real
type tag; it reports a value outside the polygon family. -/
def Geometry.geom_type : Geometry → String
  | .point _ => "Point"
  | .lineString _ => "LineString"
  | .polygon _ => "Polygon"
  | .multiPolygon _ => "MultiPolygon"
  | .null => "None"

/-- A coordinate reference system as the converter sees it:
`epsg` is `crs.to_epsg()` (`none` when unresolvable), `wkt` its text form. -/
structure CRS where
  epsg : Option Int
  wkt : String
deriving DecidableEq

/-- The slice of a GeoDataFrame the conversion core reads: the geometry
column and the collection-level CRS (`none` when no CRS is assigned). -/
structure GeoDataFrame where
  geometry : List Geometry
  crs : Option CRS
deriving DecidableEq

/-- The integer of hundredths printed by `f"{q:.2f}"`: the multiple of
1/100 nearest to `q`, i.e. `⌊100·q + 1/2⌋`, computed on the fraction
`q.num / q.den` as `⌊(200·num + den) / (2·den)⌋` with floor division. -/
def hundredths (q : ℚ) : Int :=
  Int.fdiv (200 * q.num + q.den) (2 * q.den)

/-- Python's `f"{q:.2f}"`: round to the nearest hundredth and print with
exactly two digits after the decimal point. -/
def fmt2 (q : ℚ) : String :=
  let n : Int := hundredths q
  let sgn : String := if n < 0 then "-" else ""
  let m : Nat := n.natAbs
  sgn ++ toString (m / 100) ++ "." ++ (if m % 100 < 10 then "0" else "") ++ toString (m % 100)

/-- The vertex write `buf.write(f"   {xi:.2f}   {yi:.2f} \n")` (source line 36). -/
def vertexLine (v : Pt) : String :=
  "   " ++ fmt2 v.1 ++ "   " ++ fmt2 v.2 ++ " \n"

/-- The writes issued for a single polygon part (source lines 32–38):
the `poly <counter>` header, one line per exterior-ring vertex, and the
blank line terminating the block. -/
def polyWrites (c : Nat) (p : Poly) : List String :=
  ("poly " ++ toString c ++ "\n") :: p.exterior.map vertexLine ++ ["\n"]

/-- The inner `for poly in polygons` loop (source lines 31–39): emits each
part's block and advances the counter once per part. Returns the writes
and the counter value after the loop. -/
def writePolys : Nat → List Poly → List String × Nat
  | c, [] => ([], c)
  | c, p :: ps =>
    let rest := writePolys (c + 1) ps
    (polyWrites c p ++ rest.1, rest.2)

/-- The outer `for geom in gdf.geometry` loop (source lines 18–39):
skips null geometries, expands a MultiPolygon into its parts, wraps a
Polygon as a one-part list, and skips every other geometry type. -/
def writeGeoms : Nat → List Geometry → List String × Nat
  | c, [] => ([], c)
  | c, g :: gs =>
    match g with
    | .null => writeGeoms c gs
    | .multiPolygon ps =>
      let a := writePolys c ps
      let b := writeGeoms a.2 gs
      (a.1 ++ b.1, b.2)
    | .polygon p =>
      let a := writePolys c [p]
      let b := writeGeoms a.2 gs
      (a.1 ++ b.1, b.2)
    | _ => writeGeoms c gs

/-- `geodf_to_ply_string` (source lines 10–41): run the loop with the
counter starting at 1 and return the buffer contents. -/
def geodf_to_ply_string (gdf : GeoDataFrame) : String :=
  String.join (writeGeoms 1 gdf.geometry).1

/-- `gdf.geometry.geom_type.isin(["Polygon", "MultiPolygon"])` (source line 144). -/
def polyFamily (g : Geometry) : Bool :=
  g.geom_type == "Polygon" || g.geom_type == "MultiPolygon"

/-- The two filter steps of `main` (source lines 143–144): drop null
geometries, then keep only polygon-family rows. -/
def filterGdf (gdf : GeoDataFrame) : GeoDataFrame :=
  let g1 : GeoDataFrame := { gdf with geometry := gdf.geometry.filter (fun g => !g.isNull) }
  { g1 with geometry := g1.geometry.filter polyFamily }

/-- The fatal conditions of `main`: shapefile load failure (lines 136–140),
an empty polygon-family result (lines 146–148), reprojection failure
(lines 179–183). -/
inductive ConvError where
  | loadError (msg : String)
  | emptyResult
  | reprojError (msg : String)
deriving DecidableEq

/-- What `st.download_button` delivers (source lines 196–201): the PLY
text and the chosen file name. -/
structure Download where
  text : String
  fileName : String
deriving DecidableEq

/-- EPSG detection of `main` (source lines 154–159): `none` when no CRS is
assigned or `crs.to_epsg()` fails. -/
def detectEpsg (gdf : GeoDataFrame) : Option Int :=
  match gdf.crs with
  | none => none
  | some c => c.epsg

/-- `default_epsg = epsg_detected if epsg_detected is not None else 4326`
(source line 161). -/
def defaultEpsg (gdf : GeoDataFrame) : Int :=
  (detectEpsg gdf).getD 4326

/-- The conversion pipeline of `main` (source lines 136–201), with the
load result and the reprojection collaborator (`gdf.to_crs`) passed in:
load → filter → abort when empty → reproject → serialize → download.
`output_filename or "output.ply"` falls back on the empty string. -/
def runMain (loaded : Except String GeoDataFrame)
    (toCrs : GeoDataFrame → Int → Except String GeoDataFrame)
    (outputEpsg : Int) (outputFilename : String) : Except ConvError Download :=
  match loaded with
  | .error e => .error (.loadError e)
  | .ok gdf0 =>
    let gdf := filterGdf gdf0
    if gdf.geometry.isEmpty then .error .emptyResult
    else
      match toCrs gdf outputEpsg with
      | .error e => .error (.reprojError e)
      | .ok gdfOut =>
        .ok { text := geodf_to_ply_string gdfOut
              fileName := if outputFilename = "" then "output.ply" else outputFilename }

/-- The polygon parts a single geometry contributes to the output, in the
order the serializer visits them. -/
def Geometry.parts : Geometry → List Poly
  | .multiPolygon ps => ps
  | .polygon p => [p]
  | _ => []

/-- All polygon parts of a geometry column, in serializer order. -/
def partsList (gs : List Geometry) : List Poly :=
  (gs.map Geometry.parts).flatten

/-- Reprojection collaborator that succeeds and returns its input unchanged. -/
def toCrsId : GeoDataFrame → Int → Except String GeoDataFrame :=
  fun gdf _ => Except.ok gdf

/-- Reprojection collaborator that always fails. -/
def toCrsFail : GeoDataFrame → Int → Except String GeoDataFrame :=
  fun _ _ => Except.error "unsupported EPSG"

/-! ### The rounding model agrees with `round` -/

/-- Sanity check for the formatting model: `hundredths` is exactly
`round` of one hundred times the coordinate. -/
theorem hundredths_eq_round (q : ℚ) : hundredths q = round (100 * q) := by
  have hd : (0 : ℚ) < (q.den : ℚ) := by exact_mod_cast q.den_pos
  have hnum : (q.num : ℚ) = q * (q.den : ℚ) := (Rat.mul_den_eq_num q).symm
  have key : (100 * q + 1 / 2 : ℚ) =
      ((200 * q.num + (q.den : ℤ) : ℤ) : ℚ) / ((2 * q.den : ℕ) : ℚ) := by
    push_cast
    field_simp
    linear_combination (-400 : ℚ) * hnum
  rw [round_eq, hundredths, Int.fdiv_eq_ediv _ (by positivity), key,
    Rat.floor_intCast_div_natCast]
  push_cast
  rfl

/-! ### Structural lemmas about the serializer loop -/

/-- Splitting a block of consecutive integers at an interior point. -/
theorem range'_split (s a b : Nat) :
    List.range' s (a + b) = List.range' s a ++ List.range' (s + a) b := by
  have h := (List.range'_append s a b 1).symm
  rw [one_mul, Nat.add_comm b a] at h
  exact h

/-- The inner loop emits the blocks of its parts with consecutive counter
values and leaves the counter advanced by the number of parts. -/
theorem writePolys_eq (ps : List Poly) :
    ∀ c, writePolys c ps =
      ((List.zipWith polyWrites (List.range' c ps.length) ps).flatten, c + ps.length) := by
  induction ps with
  | nil => intro c; simp [writePolys]
  | cons p ps ih =>
    intro c
    rw [writePolys, ih (c + 1)]
    simp [List.range'_succ]
    omega

/-- One step of the outer loop: every geometry contributes the blocks of
its `parts` (none for skipped geometries) and the loop continues with the
counter the inner loop left behind. -/
theorem writeGeoms_cons (c : Nat) (g : Geometry) (gs : List Geometry) :
    writeGeoms c (g :: gs) =
      ((writePolys c g.parts).1 ++ (writeGeoms (writePolys c g.parts).2 gs).1,
        (writeGeoms (writePolys c g.parts).2 gs).2) := by
  cases g <;> simp [writeGeoms, writePolys, Geometry.parts]

/-- The outer loop emits exactly one block per polygon part, in part
order, numbered by consecutive counter values. -/
theorem writeGeoms_eq (gs : List Geometry) :
    ∀ c, writeGeoms c gs =
      ((List.zipWith polyWrites (List.range' c (partsList gs).length) (partsList gs)).flatten,
        c + (partsList gs).length) := by
  induction gs with
  | nil => intro c; simp [writeGeoms, partsList]
  | cons g gs ih =>
    intro c
    have hParts : partsList (g :: gs) = g.parts ++ partsList gs := by
      simp [partsList]
    rw [writeGeoms_cons, writePolys_eq, ih, hParts, List.length_append, range'_split,
      List.zipWith_append _ _ _ _ _ (by simp), List.flatten_append]
    simp [Nat.add_assoc]

/-! ### Character-level facts: the emitted lines contain exactly one
newline, at their end -/

/-- A base-10 digit character is a digit. -/
theorem digitChar_isDigit {m : Nat} (h : m < 10) : (Nat.digitChar m).isDigit = true := by
  interval_cases m <;> decide

/-- Every character `Nat.toDigitsCore` adds in base 10 is a digit. -/
theorem toDigitsCore_isDigit (f : Nat) :
    ∀ (n : Nat) (l : List Char), (∀ c ∈ l, c.isDigit = true) →
      ∀ c ∈ Nat.toDigitsCore 10 f n l, c.isDigit = true := by
  induction f with
  | zero =>
    intro n l hl
    simpa [Nat.toDigitsCore] using hl
  | succ f ih =>
    intro n l hl c hc
    have hcons : ∀ d ∈ Nat.digitChar (n % 10) :: l, d.isDigit = true := by
      intro d hd
      rcases List.mem_cons.mp hd with h1 | h1
      · subst h1
        exact digitChar_isDigit (Nat.mod_lt _ (by decide))
      · exact hl d h1
    simp only [Nat.toDigitsCore] at hc
    by_cases hx : n / 10 = 0
    · rw [if_pos hx] at hc
      exact hcons c hc
    · rw [if_neg hx] at hc
      exact ih (n / 10) (Nat.digitChar (n % 10) :: l) hcons c hc

/-- Every character of a printed natural number is a digit. -/
theorem repr_chars_isDigit (n : Nat) : ∀ c ∈ (Nat.repr n).data, c.isDigit = true := by
  intro c hc
  have hd : (Nat.repr n).data = Nat.toDigitsCore 10 (n + 1) n [] := rfl
  rw [hd] at hc
  exact toDigitsCore_isDigit (n + 1) n [] (by simp) c hc

/-- `toString` on a natural number is `Nat.repr`. -/
theorem toString_nat_eq_repr (n : Nat) : toString n = Nat.repr n := rfl

/-- A printed natural number contains no newline. -/
theorem count_nl_repr (n : Nat) : (Nat.repr n).data.count '\n' = 0 := by
  refine List.count_eq_zero.mpr (fun hmem => ?_)
  have := repr_chars_isDigit n _ hmem
  simp at this

/-- The characters of `fmt2` output: an optional minus sign, digits, and
one decimal point — never a newline. -/
theorem nl_not_mem_fmt2 (q : ℚ) : '\n' ∉ (fmt2 q).data := by
  intro hmem
  have hdata : (fmt2 q).data =
      (if hundredths q < 0 then "-" else "").data ++
        (Nat.repr ((hundredths q).natAbs / 100)).data ++ ['.'] ++
        (if (hundredths q).natAbs % 100 < 10 then "0" else "").data ++
        (Nat.repr ((hundredths q).natAbs % 100)).data := by
    simp [fmt2, String.data_append, toString_nat_eq_repr]
  rw [hdata] at hmem
  simp only [List.mem_append] at hmem
  rcases hmem with ((((h | h) | h) | h) | h)
  · split at h <;> simp_all
  · have := repr_chars_isDigit _ _ h
    simp at this
  · simp at h
  · split at h <;> simp_all
  · have := repr_chars_isDigit _ _ h
    simp at this

/-- `fmt2` output contains no newline. -/
theorem count_nl_fmt2 (q : ℚ) : (fmt2 q).data.count '\n' = 0 :=
  List.count_eq_zero.mpr (nl_not_mem_fmt2 q)

/-- Character decomposition of a header write. -/
theorem data_header (n : Nat) :
    ("poly " ++ toString n ++ "\n").data =
      "poly ".data ++ (Nat.repr n).data ++ ['\n'] := by
  simp [String.data_append, toString_nat_eq_repr]

/-- Character decomposition of a vertex write. -/
theorem data_vertexLine (v : Pt) :
    (vertexLine v).data =
      "   ".data ++ (fmt2 v.1).data ++ "   ".data ++ (fmt2 v.2).data ++ [' ', '\n'] := by
  simp [vertexLine, String.data_append]

/-! ### The polygon-family filter -/

/-- The two sequential filters of `main` collapse to one pass keeping
exactly the non-null polygon-family rows. -/
theorem filterGdf_geometry (gdf : GeoDataFrame) :
    (filterGdf gdf).geometry = gdf.geometry.filter (fun g => !g.isNull && polyFamily g) := by
  show (gdf.geometry.filter (fun g => !g.isNull)).filter polyFamily = _
  rw [List.filter_filter]
  exact List.filter_congr fun g _ => Bool.and_comm _ _

/-- Two GeoDataFrames with the same columns are equal. -/
theorem GeoDataFrame.ext' {a b : GeoDataFrame}
    (h1 : a.geometry = b.geometry) (h2 : a.crs = b.crs) : a = b := by
  cases a
  cases b
  cases h1
  cases h2
  rfl

/-- A row the filter drops contributes no polygon part to the output. -/
theorem parts_nil_of_dropped {g : Geometry} (h : (!g.isNull && polyFamily g) = false) :
    g.parts = [] := by
  cases g <;> simp_all [Geometry.parts, Geometry.isNull, polyFamily, Geometry.geom_type]

/-- Pre-filtering does not change the polygon parts the serializer visits. -/
theorem partsList_filter (gs : List Geometry) :
    partsList (gs.filter (fun g => !g.isNull && polyFamily g)) = partsList gs := by
  induction gs with
  | nil => rfl
  | cons g gs ih =>
    by_cases h : (!g.isNull && polyFamily g) = true
    · have hstep : List.filter (fun g => !g.isNull && polyFamily g) (g :: gs) =
          g :: List.filter (fun g => !g.isNull && polyFamily g) gs := by
        simp [List.filter_cons, h]
      rw [hstep]
      simp only [partsList, List.map_cons, List.flatten_cons] at ih ⊢
      rw [ih]
    · have hstep : List.filter (fun g => !g.isNull && polyFamily g) (g :: gs) =
          List.filter (fun g => !g.isNull && polyFamily g) gs := by
        simp [List.filter_cons, h]
      have hnil : g.parts = [] := parts_nil_of_dropped (by simpa using h)
      rw [hstep, ih]
      simp [partsList, hnil]

/-! ### The claims -/

/-- Claim C1: every exterior-ring vertex of a retained polygon is emitted
as a line of the exact form three spaces, X to two decimals, three
spaces, Y to two decimals, one trailing space, newline; and the single
Polygon with exterior ring [(0,0),(1,0),(1,1),(0,0)] serializes to
exactly the scenario-A text. -/
theorem vertex_line_exact_format :
    (∀ n : Nat, ∀ p : Poly, polyWrites n p =
      ("poly " ++ toString n ++ "\n") ::
        p.exterior.map (fun v => "   " ++ fmt2 v.1 ++ "   " ++ fmt2 v.2 ++ " \n") ++ ["\n"]) ∧
    geodf_to_ply_string
        { geometry := [Geometry.polygon ⟨[(0, 0), (1, 0), (1, 1), (0, 0)], []⟩], crs := none } =
      "poly 1\n   0.00   0.00 \n   1.00   0.00 \n   1.00   1.00 \n   0.00   0.00 \n\n" :=
  ⟨fun _ _ => rfl, by decide⟩

/-- Claim C2: the whole output is the concatenation of one block per
polygon part, in part order across all features, with the header counters
running 1, 2, 3, … with no gaps and no resets. -/
theorem poly_counter_continuous (gdf : GeoDataFrame) :
    geodf_to_ply_string gdf =
      String.join (List.zipWith polyWrites
        (List.range' 1 (partsList gdf.geometry).length) (partsList gdf.geometry)).flatten := by
  rw [geodf_to_ply_string, writeGeoms_eq]

/-- Claim C3: the block for a polygon whose stored exterior ring has N
vertices is exactly one header line, then N vertex lines in ring order
(closing duplicate included, nothing de-duplicated), then one blank
line; each emitted write is a single newline-terminated line. -/
theorem serialized_block_structure (n : Nat) (p : Poly) :
    polyWrites n p = ("poly " ++ toString n ++ "\n") :: p.exterior.map vertexLine ++ ["\n"] ∧
    (polyWrites n p).length = p.exterior.length + 2 ∧
    ∀ s ∈ polyWrites n p, s.data.count '\n' = 1 ∧ s.data.getLast? = some '\n' := by
  refine ⟨rfl, by simp [polyWrites], ?_⟩
  intro s hs
  rcases List.mem_cons.mp hs with h | h
  · subst h
    constructor
    · rw [data_header]
      simp [List.count_append, count_nl_repr]
    · rw [data_header, List.getLast?_append]
      rfl
  · rcases List.mem_append.mp h with h | h
    · rcases List.mem_map.mp h with ⟨v, _, rfl⟩
      constructor
      · rw [data_vertexLine]
        simp [List.count_append, count_nl_fmt2]
      · rw [data_vertexLine, List.getLast?_append]
        rfl
    · rw [List.mem_singleton.mp h]
      constructor
      · decide
      · decide

/-- Witness for C3 at a concrete input: the header write of block 1 is a
single newline-terminated line. -/
theorem serialized_block_structure_witness :
    ("poly 1\n").data.count '\n' = 1 ∧ ("poly 1\n").data.getLast? = some '\n' :=
  (serialized_block_structure 1 ⟨[(0, 0)], []⟩).2.2 "poly 1\n" (by decide)

/-- Claim C5: the filter drops exactly the null-geometry rows and the
rows whose geometry type is outside {Polygon, MultiPolygon}, keeping the
survivors in their original relative order. -/
theorem filter_drops_exactly (gdf : GeoDataFrame) :
    (filterGdf gdf).geometry = gdf.geometry.filter (fun g => !g.isNull && polyFamily g) ∧
    (filterGdf gdf).geometry.Sublist gdf.geometry := by
  refine ⟨filterGdf_geometry gdf, ?_⟩
  rw [filterGdf_geometry]
  exact List.filter_sublist _

/-- Claim C6: the filter is idempotent. -/
theorem filter_idempotent (gdf : GeoDataFrame) :
    filterGdf (filterGdf gdf) = filterGdf gdf := by
  apply GeoDataFrame.ext'
  · rw [filterGdf_geometry (filterGdf gdf), filterGdf_geometry gdf, List.filter_filter]
    exact List.filter_congr fun g _ => Bool.and_self _
  · rfl

/-- Claim C7: a polygon with an empty exterior ring is serialized, not
rejected: its block is the header line followed immediately by the blank
line, and the counter still advances for the geometries that follow. -/
theorem degenerate_polygon_accepted (c : Nat) (hs : List (List Pt))
    (rest : List Geometry) (crs : Option CRS) :
    writeGeoms c (Geometry.polygon ⟨[], hs⟩ :: rest) =
      (("poly " ++ toString c ++ "\n") :: "\n" :: (writeGeoms (c + 1) rest).1,
        (writeGeoms (c + 1) rest).2) ∧
    geodf_to_ply_string ⟨[Geometry.polygon ⟨[], hs⟩], crs⟩ = "poly 1\n" ++ "\n" := by
  constructor
  · simp [writeGeoms, writePolys, polyWrites]
  · have hw : (writeGeoms 1 [Geometry.polygon ⟨[], hs⟩]).1 =
        ["poly " ++ toString 1 ++ "\n", "\n"] := by
      simp [writeGeoms, writePolys, polyWrites]
    rw [geodf_to_ply_string, hw]
    rfl

/-- Claim C8: serialization is deterministic and depends only on the
geometry column: GeoDataFrames with equal geometry lists serialize to
byte-identical text. -/
theorem serialization_deterministic (g1 g2 : GeoDataFrame)
    (h : g1.geometry = g2.geometry) :
    geodf_to_ply_string g1 = geodf_to_ply_string g2 := by
  rw [geodf_to_ply_string, geodf_to_ply_string, h]

/-- Witness for C8 at a concrete input: the same geometry under two
different CRS values serializes identically. -/
theorem serialization_deterministic_witness :
    geodf_to_ply_string ⟨[Geometry.polygon ⟨[(0, 0), (1, 1)], []⟩], none⟩ =
      geodf_to_ply_string
        ⟨[Geometry.polygon ⟨[(0, 0), (1, 1)], []⟩], some ⟨some 4326, "WGS 84"⟩⟩ :=
  serialization_deterministic _ _ rfl

/-- Claim C10: the serializer itself skips null and non-polygon-family
geometries, so pre-filtering never changes its output. -/
theorem prefilter_no_effect (gdf : GeoDataFrame) :
    geodf_to_ply_string (filterGdf gdf) = geodf_to_ply_string gdf := by
  rw [geodf_to_ply_string, geodf_to_ply_string, writeGeoms_eq, writeGeoms_eq,
    filterGdf_geometry, partsList_filter]

/-- Claim C4: every fatal condition — load failure, an empty filtered
result, reprojection failure — makes the pipeline return an error, so no
PLY text (not even a partial one) is ever delivered. -/
theorem fatal_conditions_abort (m : String) (gdf : GeoDataFrame)
    (toCrs : GeoDataFrame → Int → Except String GeoDataFrame) (e : Int) (f : String) :
    runMain (Except.error m) toCrs e f = Except.error (ConvError.loadError m) ∧
    ((∀ g ∈ gdf.geometry, polyFamily g = false) →
      runMain (Except.ok gdf) toCrs e f = Except.error ConvError.emptyResult) ∧
    (∀ msg, (filterGdf gdf).geometry ≠ [] → toCrs (filterGdf gdf) e = Except.error msg →
      runMain (Except.ok gdf) toCrs e f = Except.error (ConvError.reprojError msg)) := by
  refine ⟨rfl, ?_, ?_⟩
  · intro hall
    have hnil : (filterGdf gdf).geometry = [] := by
      rw [filterGdf_geometry]
      exact List.filter_eq_nil_iff.mpr fun g hg => by simp [hall g hg]
    simp [runMain, hnil]
  · intro msg hne hcrs
    simp [runMain, List.isEmpty_iff, hne, hcrs]

/-- Witness for C4 at concrete inputs: a point-only collection hits the
empty-result error; a failing reprojection aborts with its message. -/
theorem fatal_conditions_abort_witness :
    runMain (Except.ok ⟨[Geometry.point (0, 0)], none⟩) toCrsId 4326 "output.ply" =
      Except.error ConvError.emptyResult ∧
    runMain (Except.ok ⟨[Geometry.polygon ⟨[(0, 0)], []⟩], none⟩) toCrsFail 4326 "output.ply" =
      Except.error (ConvError.reprojError "unsupported EPSG") :=
  ⟨(fatal_conditions_abort "" ⟨[Geometry.point (0, 0)], none⟩ toCrsId 4326 "output.ply").2.1
      (by decide),
   (fatal_conditions_abort "" ⟨[Geometry.polygon ⟨[(0, 0)], []⟩], none⟩ toCrsFail 4326
      "output.ply").2.2 "unsupported EPSG" (by decide) rfl⟩

/-- Claim C9: the default target EPSG offered to the host is the
detected source EPSG when resolvable and 4326 otherwise, and the output
file name only names the download — the PLY text is identical for any
two file names. -/
theorem default_epsg_and_cosmetic_filename (gdf : GeoDataFrame) (e : Int)
    (loaded : Except String GeoDataFrame)
    (toCrs : GeoDataFrame → Int → Except String GeoDataFrame)
    (oe : Int) (f1 f2 : String) :
    (detectEpsg gdf = some e → defaultEpsg gdf = e) ∧
    (detectEpsg gdf = none → defaultEpsg gdf = 4326) ∧
    Except.map Download.text (runMain loaded toCrs oe f1) =
      Except.map Download.text (runMain loaded toCrs oe f2) := by
  refine ⟨fun h => by simp [defaultEpsg, h], fun h => by simp [defaultEpsg, h], ?_⟩
  cases loaded with
  | error m => rfl
  | ok gdf0 =>
    simp only [runMain]
    by_cases hemp : (filterGdf gdf0).geometry.isEmpty = true
    · simp [hemp]
    · simp only [hemp, Bool.false_eq_true, if_false]
      cases hc : toCrs (filterGdf gdf0) oe <;> simp [hc, Except.map]

/-- Witness for C9 at concrete inputs: a resolvable EPSG 32633 is the
default, a missing CRS defaults to 4326, and two different file names
produce the same PLY text. -/
theorem default_epsg_and_cosmetic_filename_witness :
    defaultEpsg ⟨[], some ⟨some 32633, "UTM zone 33N"⟩⟩ = 32633 ∧
    defaultEpsg ⟨[], none⟩ = 4326 ∧
    Except.map Download.text
        (runMain (Except.ok ⟨[Geometry.polygon ⟨[(0, 0)], []⟩], none⟩) toCrsId 4326 "a.ply") =
      Except.map Download.text
        (runMain (Except.ok ⟨[Geometry.polygon ⟨[(0, 0)], []⟩], none⟩) toCrsId 4326 "b.ply") :=
  ⟨(default_epsg_and_cosmetic_filename ⟨[], some ⟨some 32633, "UTM zone 33N"⟩⟩ 32633
      (Except.error "") toCrsId 0 "" "").1 rfl,
   (default_epsg_and_cosmetic_filename ⟨[], none⟩ 0 (Except.error "") toCrsId 0 "" "").2.1 rfl,
   (default_epsg_and_cosmetic_filename ⟨[], none⟩ 0
      (Except.ok ⟨[Geometry.polygon ⟨[(0, 0)], []⟩], none⟩) toCrsId 4326 "a.ply" "b.ply").2.2⟩

end Shp2Ply
